import Mathlib

/-!
Shallow embedding of `src/main.py` of the kakapo-bot-webhook repository:
a Flask application forwarding questions to the Gemini API, with an
OpenCV edge-count statistic on images.

External capabilities (the Gemini SDK, OpenCV, base64 decoding, and the
framework's JSON body parsing) are modelled as oracle fields of an `Env`
record; the repository's own control flow is translated function by
function.  A Python `try/except` block is embedded as an
`Except String Response` computation (`*Try`), with the corresponding
`except` clause applied by the `*Handler` wrapper.  Each handler also
returns a `Nat` counting the outbound network calls it makes to the
model API (`generate_content` / `list_models`), so that claims about
"no network call" can be stated.
-/

namespace Kakapo

/-- JSON values, as produced by Flask's `jsonify`. -/
inductive JVal where
  | str : String → JVal
  | num : Int → JVal
  | bool : Bool → JVal
  | null : JVal
  | arr : List JVal → JVal
  | obj : List (String × JVal) → JVal

/-- An HTTP response: status code plus JSON body.  `jsonify(x)` is
status 200; `jsonify(x), 500` is status 500, etc. -/
structure Response where
  status : Nat
  body : JVal

/-- A decoded image as returned by `cv2.imdecode`: `shape[:2]` is
`(height, width)`; the pixel payload is kept abstract. -/
structure Image where
  height : Nat
  width : Nat
  pix : List Nat
deriving DecidableEq, Repr

/-- One entry of `genai.list_models()`. -/
structure MInfo where
  name : String
  display_name : String
  supported_generation_methods : List String
deriving DecidableEq, Repr

/-- The process environment and the external collaborators reached over
HTTP or via third-party libraries, modelled as oracles.

* `apiKey` — whether `GEMINI_API_KEY` is set;
* `inst m` — whether `genai.GenerativeModel(m, safety_settings=...)`
  succeeds (the resulting model object is identified by its name);
* `generate m p` — `model.generate_content(p)` for text: the answer
  text, or the raised exception's message;
* `generateVision m p bytes` — `model.generate_content([p, image_part])`;
* `listModels` — `genai.list_models()`, or the raised exception;
* `b64decode s` — `base64.b64decode(s)`, or the raised exception;
* `imdecode bytes` — `cv2.imdecode(...)`; `none` models a `None` result;
* `canny img lo hi` — the flattened edge map of `cv2.Canny(img, lo, hi)`;
* `parseErrMsg` — the message of the exception Flask's `get_json`
  raises when the request body is absent or unparseable. -/
structure Env where
  apiKey : Bool
  inst : String → Bool
  generate : String → String → Except String String
  generateVision : String → String → List Nat → Except String String
  listModels : Except String (List MInfo)
  b64decode : String → Except String (List Nat)
  imdecode : List Nat → Option Image
  canny : Image → Nat → Nat → List Nat
  parseErrMsg : String

/-- Python `pat in s` substring test. -/
def strContains (s pat : String) : Bool :=
  decide (pat.data <:+: s.data)

/-- Python `s.strip()`: remove leading and trailing whitespace. -/
def pyStrip (s : String) : String :=
  ⟨((s.data.dropWhile Char.isWhitespace).reverse.dropWhile Char.isWhitespace).reverse⟩

/-- Python `s.lower()`. -/
def pyLower (s : String) : String :=
  ⟨s.data.map Char.toLower⟩

/-- The system prompt constant `KAKAPO_SYSTEM_PROMPT` of `main.py`. -/
def KAKAPO_SYSTEM_PROMPT : String :=
  "You are an expert chatbot specializing exclusively in kakapo (Strigops habroptilus), \nthe flightless parrot native to New Zealand.\n\nRules:\n- Answer ONLY questions about kakapo (biology, habitat, conservation, etc.)\n- If not about kakapo → say: \"I\x27m sorry, I only have knowledge about kakapo, the endangered flightless parrot of New Zealand.\"\n"

/-- The candidate model list of `get_model`: chosen by the
`prefer_vision` flag, as in the two branches of the source. -/
def models_to_try (prefer_vision : Bool) : List String :=
  if prefer_vision then
    ["gemini-2.0-flash", "gemini-1.5-flash", "gemini-1.5-flash-latest"]
  else
    ["gemini-2.0-flash", "gemini-1.5-flash", "gemini-1.5-flash-latest"]

/-- The error message raised by `get_model` when every candidate fails. -/
def noModelMsg : String :=
  "No available Gemini models found. Please check your API key and quota."

/-- The loop of `get_model`: try each name once, in order, returning the
first that instantiates. -/
def get_model_loop (env : Env) : List String → Except String String
  | [] => .error noModelMsg
  | m :: rest => if env.inst m then .ok m else get_model_loop env rest

/-- `get_model(prefer_vision=...)` of `main.py`. -/
def get_model (env : Env) (prefer_vision : Bool) : Except String String :=
  get_model_loop env (models_to_try prefer_vision)

/-- Request body of `/ask`: the `question` field, when present. -/
structure AskBody where
  question : Option String
deriving DecidableEq, Repr

/-- Request body of `/analyze-image`. -/
structure ImgBody where
  image : Option String
  question : Option String
deriving DecidableEq, Repr

/-- The `queryResult` object of a Dialogflow request. -/
structure QueryResult where
  queryText : Option String
deriving DecidableEq, Repr

/-- Request body of `/webhook`. -/
structure WebhookBody where
  queryResult : Option QueryResult
deriving DecidableEq, Repr

/-- The `try:` block of `ask_gemini` (`/ask`).  `none` for the body
means `request.get_json()` raises (absent or unparseable body).  The
`Nat` counts `generate_content` network calls. -/
def askTry (env : Env) (body : Option AskBody) : Except String Response × Nat :=
  if env.apiKey = false then
    (.ok ⟨500, .obj [("error", .str "GEMINI_API_KEY not configured")]⟩, 0)
  else
    match body with
    | none => (.error env.parseErrMsg, 0)
    | some data =>
      let question := pyStrip (data.question.getD "")
      if question = "" then
        (.ok ⟨400, .obj [("error", .str "No question provided")]⟩, 0)
      else
        match get_model env false with
        | .error e => (.error e, 0)
        | .ok model =>
          let full_prompt := KAKAPO_SYSTEM_PROMPT ++ "\n\nUser question: " ++ question
          match env.generate model full_prompt with
          | .error e => (.error e, 1)
          | .ok text => (.ok ⟨200, .obj [("answer", .str text)]⟩, 1)

/-- `ask_gemini` (`/ask`) with its `except Exception` clause applied. -/
def askHandler (env : Env) (body : Option AskBody) : Response × Nat :=
  match askTry env body with
  | (.ok r, n) => (r, n)
  | (.error e, n) => (⟨500, .obj [("error", .str e)]⟩, n)

/-- The `try:` block of `analyze_image` (`/analyze-image`). -/
def analyzeTry (env : Env) (body : Option ImgBody) : Except String Response × Nat :=
  if env.apiKey = false then
    (.ok ⟨500, .obj [("error", .str "GEMINI_API_KEY not configured")]⟩, 0)
  else
    match body with
    | none => (.error env.parseErrMsg, 0)
    | some data =>
      let img_b64 := data.image.getD ""
      let question := data.question.getD "Is this a kakapo?"
      if img_b64 = "" then
        (.ok ⟨400, .obj [("error", .str "No image provided")]⟩, 0)
      else
        match env.b64decode img_b64 with
        | .error e => (.error e, 0)
        | .ok img_bytes =>
          match get_model env true with
          | .error e => (.error e, 0)
          | .ok model =>
            let prompt := KAKAPO_SYSTEM_PROMPT ++ "\n\n" ++ question
            match env.generateVision model prompt img_bytes with
            | .error e => (.error e, 1)
            | .ok answer =>
              let opencv_analysis : JVal :=
                match env.imdecode img_bytes with
                | none => .null
                | some img =>
                  let edges := env.canny img 100 200
                  let edge_count := edges.countP (fun p => decide (0 < p))
                  .obj [("edges_detected", .num (Int.ofNat edge_count)),
                        ("image_shape", .arr [.num (Int.ofNat img.height),
                                              .num (Int.ofNat img.width)])]
              (.ok ⟨200, .obj [("answer", .str answer),
                               ("opencv_analysis", opencv_analysis)]⟩, 1)

/-- `analyze_image` (`/analyze-image`) with its `except` clause applied. -/
def analyzeHandler (env : Env) (body : Option ImgBody) : Response × Nat :=
  match analyzeTry env body with
  | (.ok r, n) => (r, n)
  | (.error e, n) => (⟨500, .obj [("error", .str e)]⟩, n)

/-- The `except` clause of `webhook`: map the raised message to one of
four user-facing messages. -/
def classifyError (e : String) : String :=
  if strContains e "404" || strContains e "not found" then
    "I\x27m having trouble connecting to my AI service. Please try again in a moment."
  else if strContains (pyLower e) "quota" then
    "I\x27ve reached my usage limit. Please try again later."
  else if strContains (pyLower e) "api key" then
    "There\x27s a configuration issue. Please contact the administrator."
  else
    "I encountered an error while processing your request. Please try again."

/-- The `try:` block of `webhook` (`/webhook`).  `request.get_json(force=True)`
still raises on an unparseable body, hence `none ↦ error`. -/
def webhookTry (env : Env) (body : Option WebhookBody) : Except String Response × Nat :=
  if env.apiKey = false then
    (.ok ⟨200, .obj [("fulfillmentText",
           .str "API key not configured. Please contact administrator."),
          ("source", .str "kakapo-chatbot")]⟩, 0)
  else
    match body with
    | none => (.error env.parseErrMsg, 0)
    | some req =>
      let query := (req.queryResult.bind QueryResult.queryText).getD ""
      if query = "" then
        (.ok ⟨200, .obj [("fulfillmentText", .str "No query received."),
                         ("source", .str "kakapo-chatbot")]⟩, 0)
      else
        match get_model env false with
        | .error e => (.error e, 0)
        | .ok model =>
          let full_prompt := KAKAPO_SYSTEM_PROMPT ++ "\n\nUser question: " ++ query
          match env.generate model full_prompt with
          | .error e => (.error e, 1)
          | .ok text =>
            (.ok ⟨200, .obj [("fulfillmentText", .str text),
                             ("source", .str "kakapo-chatbot")]⟩, 1)

/-- `webhook` (`/webhook`) with its `except` clause applied. -/
def webhookHandler (env : Env) (body : Option WebhookBody) : Response × Nat :=
  match webhookTry env body with
  | (.ok r, n) => (r, n)
  | (.error e, n) =>
    (⟨200, .obj [("fulfillmentText", .str (classifyError e)),
                 ("source", .str "kakapo-chatbot")]⟩, n)

/-- The `try:` block of `list_models` (`/list-models`).  The `Nat`
counts `genai.list_models()` network calls. -/
def listModelsTry (env : Env) : Except String Response × Nat :=
  if env.apiKey = false then
    (.ok ⟨500, .obj [("error", .str "GEMINI_API_KEY not set")]⟩, 0)
  else
    match env.listModels with
    | .error e => (.error e, 1)
    | .ok ms =>
      let models := (ms.filter
          (fun m => m.supported_generation_methods.contains "generateContent")).map
        (fun m => JVal.obj [("name", .str m.name),
                            ("display_name", .str m.display_name)])
      (.ok ⟨200, .obj [("available_models", .arr models),
                       ("count", .num (Int.ofNat models.length))]⟩, 1)

/-- `list_models` (`/list-models`) with its `except` clause applied. -/
def listModelsHandler (env : Env) : Response × Nat :=
  match listModelsTry env with
  | (.ok r, n) => (r, n)
  | (.error e, n) => (⟨500, .obj [("error", .str e)]⟩, n)

/-- `health_check` (`/health`): always status 200. -/
def healthHandler (env : Env) : Response :=
  let api_key_set := env.apiKey
  let step : Bool × String :=
    if api_key_set then
      match get_model env false with
      | .ok _ => (true, "API accessible")
      | .error e => (false, "API error: " ++ String.take e 100)
    else (false, "Not checked")
  ⟨200, .obj [("status", .str (if api_key_set then "healthy" else "warning")),
              ("api_key_configured", .bool api_key_set),
              ("api_accessible", .bool step.1),
              ("model_status", .str step.2)]⟩

/-- `home` (`/`). -/
def homeHandler : Response :=
  ⟨200, .obj [("status", .str "running"),
              ("service", .str "Kakapo Expert Chatbot API"),
              ("endpoints", .arr [.str "/ask", .str "/analyze-image",
                                  .str "/webhook", .str "/list-models"])]⟩

/-- The Flask routing table of `main.py`: one `(rule, methods, view)`
triple per `@app.route` decorator, in source order. -/
def routes : List (String × List String × String) :=
  [("/", ["GET"], "home"),
   ("/list-models", ["GET"], "list_models"),
   ("/ask", ["POST"], "ask_gemini"),
   ("/analyze-image", ["POST"], "analyze_image"),
   ("/webhook", ["POST"], "webhook"),
   ("/health", ["GET"], "health_check")]

/-- Field lookup in a JSON object. -/
def jsonGet (k : String) : JVal → Option JVal
  | .obj kvs => (kvs.find? (fun kv => kv.1 == k)).map Prod.snd
  | _ => none

/-- The shape of every `/webhook` response: HTTP 200 with a string
`fulfillmentText` and `source = "kakapo-chatbot"`. -/
def dialogflowShape : Response → Prop
  | ⟨s, .obj [("fulfillmentText", .str _), ("source", .str src)]⟩ =>
      s = 200 ∧ src = "kakapo-chatbot"
  | _ => False

/-- A concrete, fully healthy environment used to instantiate theorems. -/
def okEnv : Env where
  apiKey := true
  inst := fun _ => true
  generate := fun _ _ => .ok "Kakapo are flightless parrots."
  generateVision := fun _ _ _ => .ok "Yes, this is a kakapo."
  listModels := .ok [⟨"models/gemini-2.0-flash", "Gemini 2.0 Flash", ["generateContent"]⟩]
  b64decode := fun _ => .ok [1, 2, 3]
  imdecode := fun _ => some ⟨4, 6, [0, 5]⟩
  canny := fun _ _ _ => [0, 3, 0, 7]
  parseErrMsg := "400 Bad Request: Failed to decode JSON object"

/-- A concrete environment with `GEMINI_API_KEY` unset. -/
def noKeyEnv : Env :=
  { okEnv with apiKey := false }

/-- A concrete environment whose model and model-listing calls all
raise `boom`. -/
def boomEnv : Env :=
  { okEnv with generate := fun _ _ => .error "boom",
               generateVision := fun _ _ _ => .error "boom",
               listModels := .error "boom" }

/-- `get_model_loop` returns the first list element accepted by the
instantiation oracle. -/
theorem get_model_loop_find (env : Env) (l : List String) :
    get_model_loop env l =
      (l.find? env.inst).elim (Except.error noModelMsg) Except.ok := by
  induction l with
  | nil => rfl
  | cons m rest ih =>
    by_cases h : env.inst m = true
    · simp [get_model_loop, h, List.find?_cons_of_pos]
    · simp only [Bool.not_eq_true] at h
      simp [get_model_loop, h, List.find?_cons_of_neg, ih]

/-- When the first candidate instantiates, `get_model` returns it. -/
theorem get_model_first (env : Env) (pv : Bool)
    (h : env.inst "gemini-2.0-flash" = true) :
    get_model env pv = .ok "gemini-2.0-flash" := by
  cases pv <;> simp [get_model, get_model_loop, models_to_try, h]

/-- C3: `get_model` tries the fixed ordered candidate list in a single
pass, returning the first identifier the instantiation oracle accepts,
and returns the terminal error exactly when every identifier fails. -/
theorem get_model_single_pass (env : Env) (pv : Bool) :
    get_model env pv =
      ((models_to_try pv).find? env.inst).elim (Except.error noModelMsg) Except.ok ∧
    (get_model env pv = Except.error noModelMsg ↔
      ∀ m ∈ models_to_try pv, env.inst m = false) := by
  refine ⟨get_model_loop_find env _, ?_⟩
  rw [get_model, get_model_loop_find]
  rcases h : (models_to_try pv).find? env.inst with _ | m
  · rw [List.find?_eq_none] at h
    simp only [Option.elim, true_iff]
    intro m hm
    simpa using h m hm
  · have hmem := List.mem_of_find?_eq_some h
    have hinst := List.find?_some h
    simp only [Option.elim]
    constructor
    · intro hc
      exact absurd hc (by simp)
    · intro hall
      rw [hall m hmem] at hinst
      cases hinst

/-- C9: the candidate list is the same for both values of
`prefer_vision`, so `get_model` ignores its preference argument. -/
theorem get_model_ignores_preference (env : Env) :
    models_to_try true = models_to_try false ∧
    get_model env true = get_model env false := by
  exact ⟨rfl, rfl⟩

/-- C6 counterexample: no `/test` rule is registered in the routing
table, so `/test` falls through to the framework 404. -/
theorem no_test_route :
    ("/test" ∈ routes.map (fun r => r.1)) = False := by
  simp [routes]

/-- C6 amended: the registered rules are exactly `/`, `/list-models`,
`/ask`, `/analyze-image`, `/webhook`, `/health`; `/test` is absent. -/
theorem routes_exact :
    routes.map (fun r => r.1) =
      ["/", "/list-models", "/ask", "/analyze-image", "/webhook", "/health"] ∧
    "/test" ∉ routes.map (fun r => r.1) := by
  refine ⟨rfl, ?_⟩
  simp [routes]

/-- C2: with `GEMINI_API_KEY` unset, `/ask`, `/analyze-image` and
`/list-models` return 500 before any network call, and `/health`
reports status `warning`; no exception escapes. -/
theorem missing_key_surfaced (env : Env) (h : env.apiKey = false) :
    (∀ b, askHandler env b =
      (⟨500, .obj [("error", .str "GEMINI_API_KEY not configured")]⟩, 0)) ∧
    (∀ b, analyzeHandler env b =
      (⟨500, .obj [("error", .str "GEMINI_API_KEY not configured")]⟩, 0)) ∧
    listModelsHandler env =
      (⟨500, .obj [("error", .str "GEMINI_API_KEY not set")]⟩, 0) ∧
    healthHandler env =
      ⟨200, .obj [("status", .str "warning"),
                  ("api_key_configured", .bool false),
                  ("api_accessible", .bool false),
                  ("model_status", .str "Not checked")]⟩ := by
  refine ⟨fun b => ?_, fun b => ?_, ?_, ?_⟩ <;>
    simp [askHandler, askTry, analyzeHandler, analyzeTry,
          listModelsHandler, listModelsTry, healthHandler, h]

/-- C2 witness: the conclusions of `missing_key_surfaced` at the
concrete key-less environment. -/
theorem missing_key_surfaced_witness :
    noKeyEnv.apiKey = false ∧
    askHandler noKeyEnv none =
      (⟨500, .obj [("error", .str "GEMINI_API_KEY not configured")]⟩, 0) ∧
    analyzeHandler noKeyEnv none =
      (⟨500, .obj [("error", .str "GEMINI_API_KEY not configured")]⟩, 0) ∧
    listModelsHandler noKeyEnv =
      (⟨500, .obj [("error", .str "GEMINI_API_KEY not set")]⟩, 0) ∧
    healthHandler noKeyEnv =
      ⟨200, .obj [("status", .str "warning"),
                  ("api_key_configured", .bool false),
                  ("api_accessible", .bool false),
                  ("model_status", .str "Not checked")]⟩ :=
  ⟨rfl, (missing_key_surfaced noKeyEnv rfl).1 none,
    (missing_key_surfaced noKeyEnv rfl).2.1 none,
    (missing_key_surfaced noKeyEnv rfl).2.2.1,
    (missing_key_surfaced noKeyEnv rfl).2.2.2⟩

/-- C8: every `/webhook` response, whatever the input and whatever
exceptions arise, is HTTP 200 with a string `fulfillmentText` and
`source = "kakapo-chatbot"`. -/
theorem webhook_uniform_response (env : Env) (body : Option WebhookBody) :
    dialogflowShape (webhookHandler env body).1 := by
  unfold webhookHandler webhookTry
  by_cases hk : env.apiKey = false
  · simp [hk, dialogflowShape, jsonGet]
  · simp only [if_neg hk]
    cases body with
    | none => simp [dialogflowShape, jsonGet]
    | some req =>
      by_cases hq : (req.queryResult.bind QueryResult.queryText).getD "" = ""
      · simp [hq, dialogflowShape, jsonGet]
      · rcases hm : get_model env false with e | m
        · simp [hq, hm, dialogflowShape, jsonGet]
        · rcases hg : env.generate m (KAKAPO_SYSTEM_PROMPT ++
              "\n\nUser question: " ++
              (req.queryResult.bind QueryResult.queryText).getD "") with e | t
          · simp [hq, hm, hg, dialogflowShape, jsonGet]
          · simp [hq, hm, hg, dialogflowShape, jsonGet]

/-- C1 counterexample: `/webhook` with an empty `queryResult.queryText`
answers with HTTP status 200, not a 400-class status. -/
theorem webhook_empty_query_is_200 :
    (webhookHandler okEnv (some ⟨some ⟨some ""⟩⟩)).1.status = 200 ∧
    ¬(400 ≤ (webhookHandler okEnv (some ⟨some ⟨some ""⟩⟩)).1.status ∧
      (webhookHandler okEnv (some ⟨some ⟨some ""⟩⟩)).1.status < 500) := by
  have h : (webhookHandler okEnv (some ⟨some ⟨some ""⟩⟩)).1.status = 200 := rfl
  exact ⟨h, by omega⟩

/-- C1 amended: with the API key set, an empty or missing `question`
on `/ask` and an empty or missing `image` on `/analyze-image` yield
HTTP 400; an absent or unparseable JSON body on those endpoints is
caught and yields HTTP 500; `/webhook` answers empty queries and
absent bodies with HTTP 200; no handler escapes with an exception
(each is a total function). -/
theorem empty_input_responses (env : Env) (hk : env.apiKey = true) :
    (∀ q, pyStrip q = "" →
      (askHandler env (some ⟨some q⟩)).1 =
        ⟨400, .obj [("error", .str "No question provided")]⟩) ∧
    (askHandler env (some ⟨none⟩)).1 =
      ⟨400, .obj [("error", .str "No question provided")]⟩ ∧
    (askHandler env none).1.status = 500 ∧
    (∀ oq, (analyzeHandler env (some ⟨some "", oq⟩)).1 =
      ⟨400, .obj [("error", .str "No image provided")]⟩) ∧
    (∀ oq, (analyzeHandler env (some ⟨none, oq⟩)).1 =
      ⟨400, .obj [("error", .str "No image provided")]⟩) ∧
    (analyzeHandler env none).1.status = 500 ∧
    (webhookHandler env (some ⟨some ⟨some ""⟩⟩)).1 =
      ⟨200, .obj [("fulfillmentText", .str "No query received."),
                  ("source", .str "kakapo-chatbot")]⟩ ∧
    (webhookHandler env none).1.status = 200 := by
  have hnil : pyStrip "" = "" := rfl
  refine ⟨fun q hq => ?_, ?_, ?_, fun oq => ?_, fun oq => ?_, ?_, ?_, ?_⟩
  · simp [askHandler, askTry, hk, hq]
  · simp [askHandler, askTry, hk, hnil]
  · simp [askHandler, askTry, hk]
  · simp [analyzeHandler, analyzeTry, hk]
  · simp [analyzeHandler, analyzeTry, hk]
  · simp [analyzeHandler, analyzeTry, hk]
  · simp [webhookHandler, webhookTry, hk]
  · simp [webhookHandler, webhookTry, hk]

/-- C1 witness: the conclusions of `empty_input_responses` at the
concrete healthy environment, with a whitespace-only question. -/
theorem empty_input_responses_witness :
    okEnv.apiKey = true ∧ pyStrip " " = "" ∧
    (askHandler okEnv (some ⟨some " "⟩)).1 =
      ⟨400, .obj [("error", .str "No question provided")]⟩ ∧
    (analyzeHandler okEnv none).1.status = 500 ∧
    (webhookHandler okEnv none).1.status = 200 :=
  ⟨rfl, by decide,
    (empty_input_responses okEnv rfl).1 " " (by decide),
    (empty_input_responses okEnv rfl).2.2.2.2.2.1,
    (empty_input_responses okEnv rfl).2.2.2.2.2.2.2⟩

/-- The four fixed user-facing messages of the webhook `except` clause. -/
def webhookErrMsgs : List String :=
  ["I\x27m having trouble connecting to my AI service. Please try again in a moment.",
   "I\x27ve reached my usage limit. Please try again later.",
   "There\x27s a configuration issue. Please contact the administrator.",
   "I encountered an error while processing your request. Please try again."]

/-- `classifyError` always lands in the fixed four-message list. -/
theorem classifyError_mem (e : String) : classifyError e ∈ webhookErrMsgs := by
  unfold classifyError webhookErrMsgs
  repeat' split
  all_goals simp

/-- C4 counterexample: when the model call raises `boom`, `/ask`
returns the raw internal error text `boom` as the user-facing `error`
field — not a fixed apology string. -/
theorem ask_returns_raw_error_text :
    (askHandler boomEnv (some ⟨some "kakapo"⟩)).1 =
      ⟨500, .obj [("error", .str "boom")]⟩ := rfl

/-- C4 amended: exceptions are caught at the endpoint boundary; on
`/webhook` the raised message is mapped to one of four fixed messages
with HTTP 200, but on `/ask`, `/analyze-image` and `/list-models` the
raw exception text is returned as the `error` field of a 500 response. -/
theorem boundary_error_policy (env : Env) (e q b64 : String) (bytes : List Nat)
    (hk : env.apiKey = true) (hq : pyStrip q ≠ "")
    (hm : env.inst "gemini-2.0-flash" = true)
    (hg : ∀ m p, env.generate m p = .error e)
    (hb : b64 ≠ "")
    (hdec : env.b64decode b64 = .ok bytes)
    (hgv : ∀ m p bs, env.generateVision m p bs = .error e)
    (hl : env.listModels = .error e) :
    (askHandler env (some ⟨some q⟩)).1 = ⟨500, .obj [("error", .str e)]⟩ ∧
    (analyzeHandler env (some ⟨some b64, some q⟩)).1 =
      ⟨500, .obj [("error", .str e)]⟩ ∧
    (listModelsHandler env).1 = ⟨500, .obj [("error", .str e)]⟩ ∧
    (∀ qr, qr ≠ "" → (webhookHandler env (some ⟨some ⟨some qr⟩⟩)).1 =
      ⟨200, .obj [("fulfillmentText", .str (classifyError e)),
                  ("source", .str "kakapo-chatbot")]⟩) ∧
    classifyError e ∈ webhookErrMsgs := by
  have hgm := get_model_first env false hm
  have hgmv := get_model_first env true hm
  refine ⟨?_, ?_, ?_, fun qr hqr => ?_, classifyError_mem e⟩
  · simp [askHandler, askTry, hk, hq, hgm, hg]
  · simp [analyzeHandler, analyzeTry, hk, hb, hdec, hgmv, hgv]
  · simp [listModelsHandler, listModelsTry, hk, hl]
  · simp [webhookHandler, webhookTry, hk, hqr, hgm, hg]

/-- C4 witness: the conclusions of `boundary_error_policy` at the
concrete environment raising `boom`. -/
theorem boundary_error_policy_witness :
    (askHandler boomEnv (some ⟨some "raptor"⟩)).1 =
      ⟨500, .obj [("error", .str "boom")]⟩ ∧
    (analyzeHandler boomEnv (some ⟨some "abc", some "raptor"⟩)).1 =
      ⟨500, .obj [("error", .str "boom")]⟩ ∧
    (listModelsHandler boomEnv).1 =
      ⟨500, .obj [("error", .str "boom")]⟩ ∧
    (webhookHandler boomEnv (some ⟨some ⟨some "raptor"⟩⟩)).1 =
      ⟨200, .obj [("fulfillmentText", .str (classifyError "boom")),
                  ("source", .str "kakapo-chatbot")]⟩ ∧
    classifyError "boom" ∈ webhookErrMsgs :=
  ⟨(boundary_error_policy boomEnv "boom" "raptor" "abc" [1, 2, 3] rfl (by decide)
      rfl (fun _ _ => rfl) (by decide) rfl (fun _ _ _ => rfl) rfl).1,
   (boundary_error_policy boomEnv "boom" "raptor" "abc" [1, 2, 3] rfl (by decide)
      rfl (fun _ _ => rfl) (by decide) rfl (fun _ _ _ => rfl) rfl).2.1,
   (boundary_error_policy boomEnv "boom" "raptor" "abc" [1, 2, 3] rfl (by decide)
      rfl (fun _ _ => rfl) (by decide) rfl (fun _ _ _ => rfl) rfl).2.2.1,
   (boundary_error_policy boomEnv "boom" "raptor" "abc" [1, 2, 3] rfl (by decide)
      rfl (fun _ _ => rfl) (by decide) rfl (fun _ _ _ => rfl) rfl).2.2.2.1
      "raptor" (by decide),
   (boundary_error_policy boomEnv "boom" "raptor" "abc" [1, 2, 3] rfl (by decide)
      rfl (fun _ _ => rfl) (by decide) rfl (fun _ _ _ => rfl) rfl).2.2.2.2⟩

/-- C5 counterexample: the program is stateless — there is no cache —
so a repeated `/ask` call (the handler applied again to the very same
query) still performs a model network call. -/
theorem repeated_ask_networks_again :
    (askHandler okEnv (some ⟨some "Tell me about kakapo"⟩)).2 = 1 ∧
    (askHandler okEnv (some ⟨some "Tell me about kakapo"⟩)).2 ≠ 0 := by
  have h1 : (askHandler okEnv (some ⟨some "Tell me about kakapo"⟩)).2 = 1 := rfl
  exact ⟨h1, by omega⟩

/-- C5 amended: `main.py` keeps no memo cache; the handlers are pure
functions of the request (so a repeated query trivially returns
identical output), and every `/ask` call that reaches the model makes
exactly one `generate_content` network call — on the second ask of a
query just as on the first. -/
theorem ask_each_call_networks (env : Env) (q : String)
    (hk : env.apiKey = true) (hq : pyStrip q ≠ "")
    (hm : env.inst "gemini-2.0-flash" = true) :
    (askHandler env (some ⟨some q⟩)).2 = 1 := by
  have hgm := get_model_first env false hm
  rcases hg : env.generate "gemini-2.0-flash"
      (KAKAPO_SYSTEM_PROMPT ++ "\n\nUser question: " ++ pyStrip q) with e | t <;>
    simp [askHandler, askTry, hk, hq, hgm, hg]

/-- C5 witness: `ask_each_call_networks` at the concrete environment. -/
theorem ask_each_call_networks_witness :
    (askHandler okEnv (some ⟨some "kakapo"⟩)).2 = 1 :=
  ask_each_call_networks okEnv "kakapo" rfl (by decide) rfl

/-- The successful `/analyze-image` path: answer plus the edge-count
statistic of the decoded image. -/
theorem analyzeTry_success (env : Env) (b64 q ans : String) (bytes : List Nat)
    (hk : env.apiKey = true) (hb : b64 ≠ "")
    (hdec : env.b64decode b64 = .ok bytes)
    (hm : env.inst "gemini-2.0-flash" = true)
    (hv : ∀ m p bs, env.generateVision m p bs = .ok ans) :
    analyzeHandler env (some ⟨some b64, some q⟩) =
      (⟨200, .obj [("answer", .str ans),
        ("opencv_analysis",
          match env.imdecode bytes with
          | none => JVal.null
          | some img =>
            .obj [("edges_detected",
                   .num (Int.ofNat ((env.canny img 100 200).countP
                     (fun p => decide (0 < p))))),
                  ("image_shape", .arr [.num (Int.ofNat img.height),
                                        .num (Int.ofNat img.width)])])]⟩, 1) := by
  have hgm := get_model_first env true hm
  rcases hi : env.imdecode bytes with _ | img <;>
    simp [analyzeHandler, analyzeTry, hk, hb, hdec, hgm, hv, hi]

/-- C7: with a decodable image, `/analyze-image` reports the pixel
count of the threshold-(100,200) Canny edge map and the decoded height
and width alongside the model answer; and the statistic influences
nothing else — swapping the edge detector or decoder leaves the status
and the `answer` field unchanged. -/
theorem analyze_reports_edges (env : Env) (b64 q ans : String)
    (bytes : List Nat) (img : Image)
    (hk : env.apiKey = true) (hb : b64 ≠ "")
    (hdec : env.b64decode b64 = .ok bytes)
    (hm : env.inst "gemini-2.0-flash" = true)
    (hv : ∀ m p bs, env.generateVision m p bs = .ok ans)
    (hi : env.imdecode bytes = some img) :
    (analyzeHandler env (some ⟨some b64, some q⟩)).1 =
      ⟨200, .obj [("answer", .str ans),
        ("opencv_analysis",
          .obj [("edges_detected",
                 .num (Int.ofNat ((env.canny img 100 200).countP
                   (fun p => decide (0 < p))))),
                ("image_shape", .arr [.num (Int.ofNat img.height),
                                      .num (Int.ofNat img.width)])])]⟩ ∧
    (∀ c2 d2,
      (analyzeHandler { env with canny := c2, imdecode := d2 }
        (some ⟨some b64, some q⟩)).1.status = 200 ∧
      jsonGet "answer" (analyzeHandler { env with canny := c2, imdecode := d2 }
        (some ⟨some b64, some q⟩)).1.body = some (.str ans)) := by
  constructor
  · rw [analyzeTry_success env b64 q ans bytes hk hb hdec hm hv, hi]
  · intro c2 d2
    have h2 := analyzeTry_success { env with canny := c2, imdecode := d2 }
      b64 q ans bytes hk hb hdec hm hv
    rcases hd : d2 bytes with _ | img2 <;> simp [h2, hd, jsonGet]

/-- C7 witness: `analyze_reports_edges` at the concrete environment
(4×6 image, edge map `[0,3,0,7]`, hence 2 edge pixels). -/
theorem analyze_reports_edges_witness :
    (analyzeHandler okEnv (some ⟨some "abc", some "Is this a kakapo?"⟩)).1 =
      ⟨200, .obj [("answer", .str "Yes, this is a kakapo."),
        ("opencv_analysis",
          .obj [("edges_detected", .num 2),
                ("image_shape", .arr [.num 4, .num 6])])]⟩ ∧
    jsonGet "answer"
      (analyzeHandler { okEnv with canny := fun _ _ _ => [], imdecode := fun _ => none }
        (some ⟨some "abc", some "Is this a kakapo?"⟩)).1.body =
      some (.str "Yes, this is a kakapo.") :=
  ⟨(analyze_reports_edges okEnv "abc" "Is this a kakapo?" "Yes, this is a kakapo."
      [1, 2, 3] ⟨4, 6, [0, 5]⟩ rfl (by decide) rfl rfl (fun _ _ _ => rfl) rfl).1,
   ((analyze_reports_edges okEnv "abc" "Is this a kakapo?" "Yes, this is a kakapo."
      [1, 2, 3] ⟨4, 6, [0, 5]⟩ rfl (by decide) rfl rfl (fun _ _ _ => rfl) rfl).2
      (fun _ _ _ => []) (fun _ => none)).2⟩

/-- A concrete environment whose `cv2.imdecode` returns `None`. -/
def noDecodeEnv : Env :=
  { okEnv with imdecode := fun _ => none }

/-- C10: when `cv2.imdecode` returns `None`, `/analyze-image` still
succeeds: HTTP 200 with the model answer and a null `opencv_analysis`. -/
theorem analyze_decode_failure_still_answers (env : Env)
    (b64 q ans : String) (bytes : List Nat)
    (hk : env.apiKey = true) (hb : b64 ≠ "")
    (hdec : env.b64decode b64 = .ok bytes)
    (hm : env.inst "gemini-2.0-flash" = true)
    (hv : ∀ m p bs, env.generateVision m p bs = .ok ans)
    (hnone : env.imdecode bytes = none) :
    analyzeHandler env (some ⟨some b64, some q⟩) =
      (⟨200, .obj [("answer", .str ans), ("opencv_analysis", .null)]⟩, 1) := by
  rw [analyzeTry_success env b64 q ans bytes hk hb hdec hm hv, hnone]

/-- C10 witness: `analyze_decode_failure_still_answers` at the
concrete environment whose decoder yields `None`. -/
theorem analyze_decode_failure_witness :
    analyzeHandler noDecodeEnv (some ⟨some "abc", some "Is this a kakapo?"⟩) =
      (⟨200, .obj [("answer", .str "Yes, this is a kakapo."),
                   ("opencv_analysis", .null)]⟩, 1) :=
  analyze_decode_failure_still_answers noDecodeEnv "abc" "Is this a kakapo?"
    "Yes, this is a kakapo." [1, 2, 3] rfl (by decide) rfl rfl
    (fun _ _ _ => rfl) rfl

end Kakapo
